import Mathlib

/-!
Verification of the string interop boundary of `src/string.rs` (rusty_v8).

The Rust code is a thin safe wrapper over an engine backend reached through
an `extern "C"` block. We embed the backend as a structure of pure functions
(`Backend`), mirroring the extern declarations, and translate each wrapper
method of `impl String` into a Lean function over a `Backend`. Machine
integers are modelled as `Nat` with the explicit signed 32-bit bound
`int32max`; fallible creation returns `Option`. The byte count returned by
the backend write primitive is, per its documented contract, the number of
bytes actually written, so in the embedding it is the length of the written
byte list.
-/

/-- Maximum value of the engine's signed 32-bit length type (`int::max_value()`). -/
def int32max : Nat := 2147483647

/-- `usize -> int` conversion via `try_into().ok()`: succeeds exactly when the
host length fits the signed 32-bit domain (the Length Guard's failing mode). -/
def tryIntoInt (n : Nat) : Option Nat :=
  if n ≤ int32max then some n else none

/-- `usize -> int` conversion via `try_into().unwrap_or(int::max_value())`:
saturates to `int32max` instead of failing (the Length Guard's clamping mode,
used only for the UTF-8 write capacity). -/
def satInt (n : Nat) : Nat := min n int32max

/-- `NewStringType` from the source: `Normal` or `Internalized`. -/
inductive NewStringType where
  | Normal
  | Internalized
deriving DecidableEq, Repr

instance : Inhabited NewStringType := ⟨NewStringType.Normal⟩

/- The `WriteOptions` bitflags from the source, as `Nat` bit masks. -/
namespace WriteOptions

def NO_OPTIONS : Nat := 0

def HINT_MANY_WRITES_EXPECTED : Nat := 1

def NO_NULL_TERMINATION : Nat := 2

def PRESERVE_ONE_BYTE_NULL : Nat := 4

def REPLACE_INVALID_UTF8 : Nat := 8

end WriteOptions

/-- Result of the backend write primitive `v8__String__WriteUtf8`: the bytes
it deposited in the output buffer and the number of source UTF-16 code units
consumed (the `nchars_ref` out-parameter). Its `int` return value is the
number of bytes actually written, i.e. `written.length` here. -/
structure WriteResult where
  written : List Nat
  nchars : Nat
deriving DecidableEq, Repr

/-- The engine string backend: one field per function of the `extern "C"`
block in `src/string.rs`. Engine strings are opaque handles, modelled as
`Nat` ids; a null pointer result is `none`. Length arguments are the `int`
values the wrapper passes (always nonnegative, hence `Nat`). -/
structure Backend where
  emptyString : Nat
  newFromUtf8 : List Nat → NewStringType → Nat → Option Nat
  codeUnitLength : Nat → Nat
  utf8Length : Nat → Nat
  writeUtf8 : Nat → Nat → Nat → WriteResult
  newExternalOneByteStatic : List Nat → Nat → Option Nat
  isExternal : Nat → Bool
  isExternalOneByte : Nat → Bool
  isExternalTwoByte : Nat → Bool
  isOneByte : Nat → Bool

/-- A host-owned Rust `String` as built by `String::from_raw_parts(data,
length, capacity)`: its byte content, logical length and reserved capacity. -/
structure RustString where
  data : List Nat
  len : Nat
  cap : Nat
deriving DecidableEq, Repr

namespace V8String

/-- `String::empty`: returns the canonical empty string from the backend
(infallible, per the source comment). -/
def empty (B : Backend) : Nat := B.emptyString

/-- `String::new_from_utf8`: empty buffer short-circuits to `empty`;
otherwise the length passes the failing Length Guard (`try_into().ok()?`)
and the backend constructor is called with the raw bytes. -/
def new_from_utf8 (B : Backend) (buffer : List Nat) (new_type : NewStringType) :
    Option Nat :=
  if buffer.isEmpty then some (empty B)
  else
    (tryIntoInt buffer.length).bind fun buffer_len =>
      B.newFromUtf8 buffer new_type buffer_len

/-- `String::length`: number of UTF-16 code units. -/
def length (B : Backend) (s : Nat) : Nat := B.codeUnitLength s

/-- `String::utf8_length`: number of bytes of the UTF-8 encoding. -/
def utf8_length (B : Backend) (s : Nat) : Nat := B.utf8Length s

/-- Observable outcome of `String::write_utf8`: the returned byte count, the
bytes deposited in the caller's buffer, and the value stored through the
optional `nchars_ref` out-parameter (`none` when no reference was passed). -/
structure WriteOut where
  bytes : Nat
  buffer : List Nat
  nchars_out : Option Nat
deriving DecidableEq, Repr

/-- `String::write_utf8`: the buffer capacity goes through the saturating
Length Guard (`try_into().unwrap_or(int::max_value())`), the backend write
runs, and the code-unit count is stored through `nchars_ref` when present. -/
def write_utf8 (B : Backend) (s : Nat) (bufLen : Nat) (nchars_ref : Option Nat)
    (options : Nat) : WriteOut :=
  let r := B.writeUtf8 s (satInt bufLen) options
  ⟨r.written.length, r.written, nchars_ref.map fun _ => r.nchars⟩

/-- `String::new`: convenience wrapper, `new_from_utf8` with `Normal`. -/
def new (B : Backend) (value : List Nat) : Option Nat :=
  new_from_utf8 B value NewStringType.Normal

/-- `String::new_external_onebyte_static`: empty buffer is rejected outright;
otherwise the length passes the failing Length Guard and the raw bytes are
registered with the backend as external one-byte backing. -/
def new_external_onebyte_static (B : Backend) (buffer : List Nat) : Option Nat :=
  if buffer.isEmpty then none
  else
    (tryIntoInt buffer.length).bind fun buffer_len =>
      B.newExternalOneByteStatic buffer buffer_len

/-- `String::is_external_onebyte`: calls `v8__String__IsExternalOneByte`. -/
def is_external_onebyte (B : Backend) (s : Nat) : Bool := B.isExternalOneByte s

/-- `String::is_external_twobyte`: calls `v8__String__IsExternalTwoByte`. -/
def is_external_twobyte (B : Backend) (s : Nat) : Bool := B.isExternalTwoByte s

/-- `String::is_external`: the source's fallback, the disjunction of the
one-byte and two-byte external queries (the direct backend query
`v8__String__IsExternal` is commented out). -/
def is_external (B : Backend) (s : Nat) : Bool :=
  is_external_onebyte B s || is_external_twobyte B s

/-- `String::is_onebyte`: as written in the source, this calls
`v8__String__IsExternalOneByte`, not `v8__String__IsOneByte`. -/
def is_onebyte (B : Backend) (s : Nat) : Bool := B.isExternalOneByte s

/-- `String::to_rust_string_lossy`: measure `utf8_length`, allocate exactly
that capacity, write with `NO_NULL_TERMINATION | REPLACE_INVALID_UTF8` over
the full capacity, adopt the buffer with logical length = bytes written and
the original capacity (`String::from_raw_parts(data, length, capacity)`). -/
def to_rust_string_lossy (B : Backend) (s : Nat) : RustString :=
  let capacity := utf8_length B s
  let w := write_utf8 B s capacity none
    (WriteOptions.NO_NULL_TERMINATION ||| WriteOptions.REPLACE_INVALID_UTF8)
  ⟨w.buffer, w.bytes, capacity⟩

end V8String

/-- A byte is a UTF-8 continuation byte (`0x80..0xBF`). -/
def utf8Cont (b : Nat) : Bool := 128 ≤ b && b ≤ 191

/-- Strict UTF-8 validity of a byte sequence (RFC 3629): rejects overlong
encodings, encoded surrogate code points (`0xED 0xA0..` lead-ins) and code
points above `U+10FFFF`. This is the invariant the host string type requires. -/
def Utf8Valid : List Nat → Bool
  | [] => true
  | b :: rest =>
    if b ≤ 127 then Utf8Valid rest
    else if 194 ≤ b && b ≤ 223 then
      match rest with
      | b1 :: rest2 => utf8Cont b1 && Utf8Valid rest2
      | [] => false
    else if b == 224 then
      match rest with
      | b1 :: b2 :: rest2 =>
        (160 ≤ b1 && b1 ≤ 191) && utf8Cont b2 && Utf8Valid rest2
      | _ => false
    else if (225 ≤ b && b ≤ 236) || b == 238 || b == 239 then
      match rest with
      | b1 :: b2 :: rest2 => utf8Cont b1 && utf8Cont b2 && Utf8Valid rest2
      | _ => false
    else if b == 237 then
      match rest with
      | b1 :: b2 :: rest2 =>
        (128 ≤ b1 && b1 ≤ 159) && utf8Cont b2 && Utf8Valid rest2
      | _ => false
    else if b == 240 then
      match rest with
      | b1 :: b2 :: b3 :: rest2 =>
        (144 ≤ b1 && b1 ≤ 191) && utf8Cont b2 && utf8Cont b3 && Utf8Valid rest2
      | _ => false
    else if 241 ≤ b && b ≤ 243 then
      match rest with
      | b1 :: b2 :: b3 :: rest2 =>
        utf8Cont b1 && utf8Cont b2 && utf8Cont b3 && Utf8Valid rest2
      | _ => false
    else if b == 244 then
      match rest with
      | b1 :: b2 :: b3 :: rest2 =>
        (128 ≤ b1 && b1 ≤ 143) && utf8Cont b2 && utf8Cont b3 && Utf8Valid rest2
      | _ => false
    else false

/-- Modelled from the spec: `utf8-bytes-of(t)` for ASCII/Latin-1-only host
text `t`, given as the list of its code points (each below `0x100`). ASCII
code points encode as themselves, `0x80..0xFF` as the standard two-byte
UTF-8 sequence. -/
def latin1Utf8 : List Nat → List Nat
  | [] => []
  | c :: t =>
    (if c ≤ 127 then [c] else [192 + c / 64, 128 + c % 64]) ++ latin1Utf8 t

/-- A small concrete backend used to instantiate theorems: one interned
string (id 1, content "hi"), one external registration slot (id 3). -/
def B1 : Backend where
  emptyString := 0
  newFromUtf8 := fun b _k l => if b == [104, 105] && l == 2 then some 1 else none
  codeUnitLength := fun s => if s == 1 then 2 else 0
  utf8Length := fun s => if s == 1 then 2 else 0
  writeUtf8 := fun s _cap _opts => if s == 1 then ⟨[104, 105], 2⟩ else ⟨[], 0⟩
  newExternalOneByteStatic := fun b _l => if b == [72] then some 3 else none
  isExternal := fun _ => false
  isExternalOneByte := fun s => s == 3
  isExternalTwoByte := fun _ => false
  isOneByte := fun _ => true

/-- A second concrete backend sharing `B1`'s canonical empty string but with
a degenerate write primitive (writes nothing, builds nothing). -/
def B2 : Backend where
  emptyString := 0
  newFromUtf8 := fun _ _ _ => none
  codeUnitLength := fun _ => 0
  utf8Length := fun _ => 0
  writeUtf8 := fun _ _ _ => ⟨[], 0⟩
  newExternalOneByteStatic := fun _ _ => none
  isExternal := fun _ => false
  isExternalOneByte := fun _ => false
  isExternalTwoByte := fun _ => false
  isOneByte := fun _ => false

/- Helper lemmas shared by several claim theorems. -/

theorem isEmpty_false_of_overflow {buffer : List Nat} (h : int32max < buffer.length) :
    buffer.isEmpty = false := by
  cases buffer with
  | nil => simp [int32max] at h
  | cons a t => rfl

theorem tryIntoInt_none_of_overflow {n : Nat} (h : int32max < n) :
    tryIntoInt n = none := by
  simp only [tryIntoInt, if_neg (Nat.not_le.mpr h)]

theorem new_from_utf8_of_overflow (B : Backend) (buffer : List Nat)
    (k : NewStringType) (h : int32max < buffer.length) :
    V8String.new_from_utf8 B buffer k = none := by
  simp [V8String.new_from_utf8, isEmpty_false_of_overflow h,
    tryIntoInt_none_of_overflow h]

theorem new_external_onebyte_static_of_overflow (B : Backend)
    (buffer : List Nat) (h : int32max < buffer.length) :
    V8String.new_external_onebyte_static B buffer = none := by
  simp [V8String.new_external_onebyte_static, isEmpty_false_of_overflow h,
    tryIntoInt_none_of_overflow h]

/-- Claim C1: for every engine string, `to_rust_string_lossy` passes a write
option mask with `REPLACE_INVALID_UTF8` set, so under the backend contract
for that flag (the written bytes are valid UTF-8, unpaired surrogates having
been substituted by replacement characters) the materialized host string is
valid UTF-8, with no fault path. -/
theorem to_rust_string_lossy_always_valid_utf8 (B : Backend) (s : Nat)
    (hB : ∀ t cap opts, opts &&& WriteOptions.REPLACE_INVALID_UTF8 ≠ 0 →
      Utf8Valid (B.writeUtf8 t cap opts).written = true) :
    Utf8Valid (V8String.to_rust_string_lossy B s).data = true ∧
    (WriteOptions.NO_NULL_TERMINATION ||| WriteOptions.REPLACE_INVALID_UTF8) &&&
      WriteOptions.REPLACE_INVALID_UTF8 ≠ 0 := by
  refine ⟨?_, by decide⟩
  exact hB s (satInt (V8String.utf8_length B s)) _ (by decide)

/-- Witness for C1 at a concrete backend and string. -/
theorem to_rust_string_lossy_always_valid_utf8_witness :
    Utf8Valid (V8String.to_rust_string_lossy B2 0).data = true ∧
    (WriteOptions.NO_NULL_TERMINATION ||| WriteOptions.REPLACE_INVALID_UTF8) &&&
      WriteOptions.REPLACE_INVALID_UTF8 ≠ 0 :=
  to_rust_string_lossy_always_valid_utf8 B2 0 (fun _ _ _ _ => rfl)

/-- Claim C2: `to_rust_string_lossy` follows measure-then-write: the returned
string's capacity is exactly `utf8_length`, and its byte content and logical
length are exactly what `write_utf8` over that full capacity with
`NO_NULL_TERMINATION ||| REPLACE_INVALID_UTF8` deposits and reports. -/
theorem to_rust_string_lossy_measure_then_write (B : Backend) (s : Nat) :
    (V8String.to_rust_string_lossy B s).cap = V8String.utf8_length B s ∧
    (V8String.to_rust_string_lossy B s).len =
      (V8String.write_utf8 B s (V8String.utf8_length B s) none
        (WriteOptions.NO_NULL_TERMINATION ||| WriteOptions.REPLACE_INVALID_UTF8)).bytes ∧
    (V8String.to_rust_string_lossy B s).data =
      (V8String.write_utf8 B s (V8String.utf8_length B s) none
        (WriteOptions.NO_NULL_TERMINATION ||| WriteOptions.REPLACE_INVALID_UTF8)).buffer :=
  ⟨rfl, rfl, rfl⟩

/-- Claim C3: a buffer longer than the signed 32-bit maximum is rejected by
both creation paths: `new_from_utf8` and `new_external_onebyte_static`
return `none` (no truncation, no crash), for every backend and kind. -/
theorem creation_overflow_rejected (B : Backend) (buffer : List Nat)
    (k : NewStringType) (h : int32max < buffer.length) :
    V8String.new_from_utf8 B buffer k = none ∧
    V8String.new_external_onebyte_static B buffer = none :=
  ⟨new_from_utf8_of_overflow B buffer k h,
   new_external_onebyte_static_of_overflow B buffer h⟩

/-- Witness for C3 on a concrete buffer of length 2^31. -/
theorem creation_overflow_rejected_witness :
    V8String.new_from_utf8 B1 (List.replicate (2 ^ 31) 0) NewStringType.Normal = none ∧
    V8String.new_external_onebyte_static B1 (List.replicate (2 ^ 31) 0) = none :=
  creation_overflow_rejected B1 (List.replicate (2 ^ 31) 0) NewStringType.Normal
    (by rw [List.length_replicate]; norm_num [int32max])

/-- Claim C4: `new_from_utf8` on the empty buffer returns the canonical
empty string that `empty` returns, for any kind, and does so without
consulting the Length Guard or the creation backend: any two backends that
agree on the canonical empty string give the same result, for any kinds. -/
theorem new_from_utf8_empty_singleton (Ba Bb : Backend) (k1 k2 : NewStringType)
    (h : Ba.emptyString = Bb.emptyString) :
    V8String.new_from_utf8 Ba [] k1 = some (V8String.empty Ba) ∧
    V8String.new_from_utf8 Ba [] k1 = V8String.new_from_utf8 Bb [] k2 := by
  refine ⟨rfl, ?_⟩
  simp [V8String.new_from_utf8, V8String.empty, h]

/-- Witness for C4 on two concrete backends sharing the empty singleton. -/
theorem new_from_utf8_empty_singleton_witness :
    V8String.new_from_utf8 B1 [] NewStringType.Normal = some (V8String.empty B1) ∧
    V8String.new_from_utf8 B1 [] NewStringType.Normal =
      V8String.new_from_utf8 B2 [] NewStringType.Internalized :=
  new_from_utf8_empty_singleton B1 B2 NewStringType.Normal
    NewStringType.Internalized rfl

/-- Claim C5: when the output buffer length exceeds the signed 32-bit
maximum, the capacity handed to the backend saturates to that maximum
(`satInt`), and `write_utf8` still completes, behaving exactly as a call
with capacity `int32max`: output-buffer size never causes a rejection. -/
theorem write_utf8_capacity_saturates (B : Backend) (s : Nat) (r : Option Nat)
    (opts : Nat) (n : Nat) (h : int32max < n) :
    satInt n = int32max ∧
    V8String.write_utf8 B s n r opts = V8String.write_utf8 B s int32max r opts := by
  have hs : satInt n = int32max := by
    simp [satInt, Nat.min_eq_right h.le]
  have hs2 : satInt int32max = int32max := by
    simp [satInt]
  exact ⟨hs, by simp only [V8String.write_utf8, hs, hs2]⟩

/-- Witness for C5 at a concrete oversized capacity. -/
theorem write_utf8_capacity_saturates_witness :
    satInt (2 ^ 31) = int32max ∧
    V8String.write_utf8 B1 1 (2 ^ 31) none 0 =
      V8String.write_utf8 B1 1 int32max none 0 :=
  write_utf8_capacity_saturates B1 1 none 0 (2 ^ 31) (by norm_num [int32max])

/-- Claim C6: a zero-length external one-byte registration request is
rejected before reaching the backend: `new_external_onebyte_static` on the
empty buffer is `none` for every backend. -/
theorem new_external_onebyte_static_empty_none (B : Backend) :
    V8String.new_external_onebyte_static B [] = none := rfl

/-- Claim C7: `is_external` is exactly the disjunction of
`is_external_onebyte` and `is_external_twobyte`; all classification queries
are pure functions of the backend and the string handle (no side effects in
the embedding). -/
theorem is_external_eq_onebyte_or_twobyte (B : Backend) (s : Nat) :
    V8String.is_external B s =
      (V8String.is_external_onebyte B s || V8String.is_external_twobyte B s) := rfl

/-- Claim C8: `is_onebyte` calls the same backend primitive
(`v8__String__IsExternalOneByte`) as `is_external_onebyte`, so the two
always return the same value, despite the backend exposing a distinct
`v8__String__IsOneByte` primitive. -/
theorem is_onebyte_eq_is_external_onebyte (B : Backend) (s : Nat) :
    V8String.is_onebyte B s = V8String.is_external_onebyte B s := rfl

/-- Claim C9: create-then-materialize round trip on ASCII/Latin-1 text `t`:
if the engine, per its specified contract, accepts the UTF-8 bytes of `t`,
reports their exact UTF-8 length back, and reproduces them on a write of
that capacity, then `to_rust_string_lossy` of the created string returns
exactly the UTF-8 bytes of `t` with matching logical length. -/
theorem ascii_latin1_round_trip (B : Backend) (t : List Nat) (s : Nat)
    (h1 : V8String.new_from_utf8 B (latin1Utf8 t) NewStringType.Normal = some s)
    (h2 : B.utf8Length s = (latin1Utf8 t).length)
    (h3 : (B.writeUtf8 s (latin1Utf8 t).length
        (WriteOptions.NO_NULL_TERMINATION ||| WriteOptions.REPLACE_INVALID_UTF8)).written
        = latin1Utf8 t) :
    (V8String.to_rust_string_lossy B s).data = latin1Utf8 t ∧
    (V8String.to_rust_string_lossy B s).len = (latin1Utf8 t).length := by
  have hle : (latin1Utf8 t).length ≤ int32max := by
    by_contra hgt
    push_neg at hgt
    rw [new_from_utf8_of_overflow B _ _ hgt] at h1
    exact Option.noConfusion h1
  have hsat : satInt (B.utf8Length s) = (latin1Utf8 t).length := by
    rw [h2]
    simp [satInt, Nat.min_eq_left hle]
  constructor
  · show (B.writeUtf8 s (satInt (B.utf8Length s))
        (WriteOptions.NO_NULL_TERMINATION ||| WriteOptions.REPLACE_INVALID_UTF8)).written
        = latin1Utf8 t
    rw [hsat, h3]
  · show (B.writeUtf8 s (satInt (B.utf8Length s))
        (WriteOptions.NO_NULL_TERMINATION ||| WriteOptions.REPLACE_INVALID_UTF8)).written.length
        = (latin1Utf8 t).length
    rw [hsat, h3]

/-- Witness for C9 on the concrete backend `B1` and the text "hi". -/
theorem ascii_latin1_round_trip_witness :
    (V8String.to_rust_string_lossy B1 1).data = latin1Utf8 [104, 105] ∧
    (V8String.to_rust_string_lossy B1 1).len = (latin1Utf8 [104, 105]).length :=
  ascii_latin1_round_trip B1 [104, 105] 1 (by decide) (by decide) (by decide)

/-- Claim C10: `new_external_onebyte_static` performs no content inspection:
for every non-empty buffer whose length fits the signed 32-bit maximum, the
raw bytes are handed to the backend registration call unchanged, and the
result is `none` exactly when the backend returns null. -/
theorem new_external_onebyte_static_no_content_check (B : Backend)
    (buffer : List Nat) (h1 : buffer ≠ []) (h2 : buffer.length ≤ int32max) :
    V8String.new_external_onebyte_static B buffer =
      B.newExternalOneByteStatic buffer buffer.length ∧
    (V8String.new_external_onebyte_static B buffer = none ↔
      B.newExternalOneByteStatic buffer buffer.length = none) := by
  have hne : buffer.isEmpty = false := by
    cases buffer with
    | nil => exact absurd rfl h1
    | cons a t => rfl
  have hti : tryIntoInt buffer.length = some buffer.length := by
    simp [tryIntoInt, h2]
  have he : V8String.new_external_onebyte_static B buffer =
      B.newExternalOneByteStatic buffer buffer.length := by
    simp [V8String.new_external_onebyte_static, hne, hti]
  exact ⟨he, by rw [he]⟩

/-- Witness for C10 on a buffer holding a byte outside the ASCII range. -/
theorem new_external_onebyte_static_no_content_check_witness :
    (V8String.new_external_onebyte_static B1 [200] =
      B1.newExternalOneByteStatic [200] (List.length [200])) ∧
    (V8String.new_external_onebyte_static B1 [200] = none ↔
      B1.newExternalOneByteStatic [200] (List.length [200]) = none) :=
  new_external_onebyte_static_no_content_check B1 [200] (by decide) (by decide)
